import Mathlib

/-!
Verification of the catalog-read path of the buch-backend repository:
`BuchReadService` (find, findById, checkKeys, image loading) and the
GraphQL `BuchQueryResolver` (findById, rabatt rendering), shallowly
embedded in Lean.  TypeScript numbers are modelled as `ℚ` (the values
exercised here are exactly representable), thrown `NotFoundException`s
as an `Except` error channel, and the asynchronous calls as pure
function application.
-/

namespace BuchBackend

/-- value of a single search criterion (string, numeric or boolean field). -/
inductive CritValue
  | str (s : String)
  | num (q : ℚ)
  | boolean (b : Bool)
deriving DecidableEq

/-- a criteria mapping: caller-supplied keys with values, in insertion order
(the order `Object.keys` observes). -/
abbrev Suchkriterien := List (String × CritValue)

/-- the one exception class the service throws: `NotFoundException(message)`
from `@nestjs/common`.  All three failure sites of the service use this same
class; they differ only in the message string. -/
inductive ServiceError
  | notFoundException (message : String)
deriving DecidableEq

/-- the message carried by the exception. -/
def ServiceError.message : ServiceError → String
  | .notFoundException m => m

/-- the exception class name, as a NestJS exception filter would observe it. -/
def ServiceError.className : ServiceError → String
  | .notFoundException _ => "NotFoundException"

/-- Modelled from the spec: an associated image record (`abbildungen` entity is
not among the sources; §3 calls them "associated image records"). -/
structure Abbildung where
  beschriftung : String
  contentType : String
deriving DecidableEq

/-- Modelled from the spec: a Book row as stored (entity file not among the
sources); fields from §3 of the data model, with the associated image records
attached. -/
structure BuchRow where
  id : Int
  isbn : String
  rating : Int
  art : String
  preis : ℚ
  rabatt : ℚ
  lieferbar : Bool
  datum : String
  homepage : String
  schlagwoerter : List String
  titel : String
  abbildungen : List Abbildung
deriving DecidableEq

/-- a Book projection as returned to the caller: `abbildungen` is `none` unless
the images relation was explicitly joined, `rabatt` may be absent. -/
structure Buch where
  id : Int
  isbn : String
  rating : Int
  art : String
  preis : ℚ
  rabatt : Option ℚ
  lieferbar : Bool
  datum : String
  homepage : String
  schlagwoerter : List String
  titel : String
  abbildungen : Option (List Abbildung)
deriving DecidableEq

/-- project a stored row to the caller-visible Book, joining the images
relation only when `mitAbbildungen` is set. -/
def project (mitAbbildungen : Bool) (row : BuchRow) : Buch :=
  ⟨row.id, row.isbn, row.rating, row.art, row.preis, some row.rabatt,
   row.lieferbar, row.datum, row.homepage, row.schlagwoerter, row.titel,
   if mitAbbildungen then some row.abbildungen else none⟩

/-- the interface of `query-builder.ts` as the read service uses it:
`build(criteria).getMany()` and `buildId({id, mitAbbildungen}).getOne()`. -/
structure QueryBuilder where
  buildGetMany : Suchkriterien → List Buch
  buildIdGetOne : Int → Bool → Option Buch

/-- Modelled from the spec: `query-builder.ts` is not among the sources.
§4.2: "An empty criteria mapping yields an unfiltered query returning all
Books"; a nonempty mapping filters "by conjunction of all supplied criteria"
(the per-criterion comparison is abstracted as the `matcher` parameter);
"By identifier: ... fetches at most one Book matching that id, with the
images relation joined only if requested"; §3: images are "never eagerly
loaded unless requested". -/
def QueryBuilder.ofStore (store : List BuchRow)
    (matcher : BuchRow → String × CritValue → Bool) : QueryBuilder :=
  ⟨fun sk => (store.filter (fun row => sk.all (matcher row))).map (project false),
   fun id mitAbbildungen =>
     (store.find? (fun row => row.id == id)).map (project mitAbbildungen)⟩

/-- Modelled from the spec: the property-name list the service obtains with
`Object.getOwnPropertyNames(new Buch())` (entity file not among the sources);
§3 lists the Book fields. -/
def buchProps : List String :=
  ["id", "isbn", "rating", "art", "preis", "rabatt", "lieferbar", "datum",
   "homepage", "schlagwoerter", "titel", "abbildungen"]

namespace BuchReadService

/-- `#checkKeys(keys)`: walks the keys with `forEach`, flipping a `validKeys`
flag to `false` on every key that is neither a Buch property nor one of the
reserved flags `javascript` / `typescript`. -/
def checkKeys (props : List String) (keys : List String) : Bool :=
  keys.foldl
    (fun validKeys key =>
      if !(props.contains key) && key != "javascript" && key != "typescript"
      then false
      else validKeys)
    true

end BuchReadService

/-- JSON rendering of a criterion value, for the `JSON.stringify` in the
not-found message (numeric rendering abstracted via `toString`). -/
def CritValue.toJson : CritValue → String
  | .str s => "\x22" ++ s ++ "\x22"
  | .num q => if q.den = 1 then toString q.num else toString q
  | .boolean b => if b then "true" else "false"

/-- `JSON.stringify(suchkriterien)` on the criteria object. -/
def stringifyCriteria (sk : Suchkriterien) : String :=
  "\x7b"
    ++ String.intercalate ","
         (sk.map (fun kv => "\x22" ++ kv.1 ++ "\x22:" ++ kv.2.toJson))
    ++ "\x7d"

namespace BuchReadService

/-- `find(suchkriterien?)`.  The second component records the criteria object
of each `build(...).getMany()` call that was executed, in order (the query
trace); the first is the returned list or thrown exception. -/
def find (props : List String) (queryBuilder : QueryBuilder)
    (suchkriterien : Option Suchkriterien) :
    Except ServiceError (List Buch) × List Suchkriterien :=
  match suchkriterien with
  | none => (Except.ok (queryBuilder.buildGetMany []), [[]])
  | some sk =>
      let keys := sk.map Prod.fst
      if keys.length = 0 then
        (Except.ok (queryBuilder.buildGetMany sk), [sk])
      else if !(checkKeys props keys) then
        (Except.error (ServiceError.notFoundException "Ungueltige Suchkriterien"),
         [])
      else
        let buecher := queryBuilder.buildGetMany sk
        if buecher.length = 0 then
          (Except.error (ServiceError.notFoundException
             ("Keine Buecher gefunden: " ++ stringifyCriteria sk)),
           [sk])
        else
          (Except.ok buecher, [sk])

end BuchReadService

/-- the `FindByIdParams` interface: `id` with optional `mitAbbildungen`,
`none` standing for an omitted property. -/
structure FindByIdParams where
  id : Int
  mitAbbildungen : Option Bool
deriving DecidableEq

namespace BuchReadService

/-- `findById({id, mitAbbildungen = false})`: destructuring default `false`,
one `buildId(...).getOne()` call, `NotFoundException` on a null result. -/
def findById (queryBuilder : QueryBuilder) (params : FindByIdParams) :
    Except ServiceError Buch :=
  let mitAbbildungen := params.mitAbbildungen.getD false
  match queryBuilder.buildIdGetOne params.id mitAbbildungen with
  | none =>
      Except.error (ServiceError.notFoundException
        ("Es gibt kein Buch mit der ID " ++ toString params.id ++ "."))
  | some buch => Except.ok buch

end BuchReadService

/-- the GraphQL `IdInput` type: it carries only the id. -/
structure IdInput where
  id : Int
deriving DecidableEq

namespace BuchQueryResolver

/-- the resolver for the `buch` query: destructures the id and calls the
service with `{ id }` only (so `mitAbbildungen` is the omitted property). -/
def findById (service : QueryBuilder) (idInput : IdInput) :
    Except ServiceError Buch :=
  BuchReadService.findById service ⟨idInput.id, none⟩

end BuchQueryResolver

/-- `⌊q + 1/2⌋`: the integer n with n - q closest to zero, the larger one on
ties — the rounding `Number.prototype.toFixed` specifies (nonnegative case). -/
def jsRound (q : ℚ) : Int :=
  Int.ediv (2 * q.num + (q.den : Int)) (2 * (q.den : Int))

/-- the two fractional digits of a value scaled by 100. -/
def frac2 (n : Int) : String :=
  if (Int.emod n 100).toNat < 10 then "0" ++ toString (Int.emod n 100).toNat
  else toString (Int.emod n 100).toNat

/-- `x.toFixed(2)` for a nonnegative numeric value `x`, over ℚ. -/
def toFixed2 (x : ℚ) : String :=
  let n := jsRound (x * 100)
  toString (Int.ediv n 100) ++ "." ++ frac2 n

namespace BuchQueryResolver

/-- the `rabatt` ResolveField:
`` `${(rabatt * 100).toFixed(2)} ${shortStr}` `` with `rabatt ?? 0` and
`shortStr` = `"%"` unless `short` is exactly `false`. -/
def rabatt (buch : Buch) (short : Option Bool) : String :=
  let rabatt := buch.rabatt.getD 0
  let shortStr :=
    match short with
    | none => "%"
    | some b => if b then "%" else "Prozent"
  toFixed2 (rabatt * 100) ++ " " ++ shortStr

end BuchQueryResolver

/-- file contents, as the byte list a `Buffer` holds. -/
abbrev Buffer := List Nat

/-- a Node `Buffer` object is always truthy (even when empty), so the
`if (!imageBuffer)` re-checks in the service never fire on a real read. -/
def bufferTruthy (_ : Buffer) : Bool := true

/-- the hardcoded path the image name is appended to, with no sanitization. -/
def imageBasePath : String := "C:/Users/Student/SWE/buch/images/"

namespace BuchReadService

/-- `loadImageFromFileSystem(imageName)`: `fs.readFile` on the concatenated
path (`fs` maps a path to its bytes, `none` when the read throws), with the
catch block converted to a `NotFoundException`. -/
def loadImageFromFileSystem (fs : String → Option Buffer) (imageName : String) :
    Except ServiceError Buffer :=
  let imagePath := imageBasePath ++ imageName
  match fs imagePath with
  | some imageBuffer => Except.ok imageBuffer
  | none =>
      Except.error (ServiceError.notFoundException
        ("Image not found for name: " ++ imageName))

/-- `loadImageFromServer(imageName)`: delegates, then re-checks truthiness. -/
def loadImageFromServer (fs : String → Option Buffer) (imageName : String) :
    Except ServiceError Buffer :=
  match loadImageFromFileSystem fs imageName with
  | Except.error e => Except.error e
  | Except.ok imageBuffer =>
      if !(bufferTruthy imageBuffer) then
        Except.error (ServiceError.notFoundException
          ("Image not found for name: " ++ imageName))
      else
        Except.ok imageBuffer

/-- `findImageByName(imageName)`: delegates, then re-checks truthiness. -/
def findImageByName (fs : String → Option Buffer) (imageName : String) :
    Except ServiceError Buffer :=
  match loadImageFromServer fs imageName with
  | Except.error e => Except.error e
  | Except.ok imageBuffer =>
      if !(bufferTruthy imageBuffer) then
        Except.error (ServiceError.notFoundException
          ("No image found for name: " ++ imageName))
      else
        Except.ok imageBuffer

end BuchReadService

/-- a store row for concrete evaluations. -/
def demoAbbildung : Abbildung := ⟨"Abb. 1", "img/png"⟩

/-- a store row for concrete evaluations. -/
def demoRow : BuchRow :=
  ⟨1, "978-3-897-22583-1", 4, "DRUCKAUSGABE", 11, 1/10, true,
   "2022-02-01", "https://acme.at/", ["JAVASCRIPT"], "Alpha",
   [demoAbbildung]⟩

/-- whether `msg` mentions `key` as a substring (over the character lists). -/
def listContainsSub (pat : List Char) : List Char → Bool
  | [] => List.isPrefixOf pat []
  | c :: rest => List.isPrefixOf pat (c :: rest) || listContainsSub pat rest

/-- whether an error message mentions a criteria key. -/
def strMentions (msg key : String) : Bool :=
  listContainsSub key.toList msg.toList

/-- the `forEach` loop of `#checkKeys`, as a fold: the flag ends up `true`
exactly when it started `true` and every key is acceptable. -/
theorem checkKeys_foldl_eq (props : List String) (keys : List String) (b : Bool) :
    keys.foldl
      (fun validKeys key =>
        if !(props.contains key) && key != "javascript" && key != "typescript"
        then false
        else validKeys) b
      = (b && keys.all (fun key =>
          props.contains key || key == "javascript" || key == "typescript")) := by
  induction keys generalizing b with
  | nil => simp
  | cons k t ih =>
      simp only [List.foldl_cons, List.all_cons]
      rw [ih]
      have hcond :
          (!(props.contains k) && k != "javascript" && k != "typescript")
            = !(props.contains k || k == "javascript" || k == "typescript") := by
        simp only [bne]
        cases props.contains k <;> cases (k == "javascript") <;>
          cases (k == "typescript") <;> rfl
      rw [hcond]
      cases props.contains k || k == "javascript" || k == "typescript" <;> simp

/-- `#checkKeys` over the whole key list is the conjunction of the
per-key checks. -/
theorem checkKeys_eq_all (props keys : List String) :
    BuchReadService.checkKeys props keys
      = keys.all (fun key =>
          props.contains key || key == "javascript" || key == "typescript") := by
  unfold BuchReadService.checkKeys
  rw [checkKeys_foldl_eq]
  simp

/-- C5: `#checkKeys` returns true iff every supplied key is a known Book
property name or one of the reserved flags `javascript` / `typescript`;
a single unrecognized key makes it false — no partial acceptance. -/
theorem checkKeys_true_iff (props keys : List String) :
    BuchReadService.checkKeys props keys = true ↔
      ∀ key ∈ keys,
        key ∈ props ∨ key = "javascript" ∨ key = "typescript" := by
  rw [checkKeys_eq_all]
  simp [List.all_eq_true, or_assoc]

/-- C1 (counterexample): on the unrecognized criteria key "foo" the service
throws the same exception class as the not-found paths
(`NotFoundException`), with the fixed message "Ungueltige Suchkriterien"
that does not mention the offending key — not a failure kind distinct from
NotFound identifying the keys. -/
theorem find_invalidCriteria_counterexample :
    (BuchReadService.find buchProps
        (QueryBuilder.ofStore [] (fun _ _ => false))
        (some [("foo", CritValue.str "bar")])).1
      = Except.error (ServiceError.notFoundException "Ungueltige Suchkriterien")
    ∧ strMentions "Ungueltige Suchkriterien" "foo" = false
    ∧ (ServiceError.notFoundException "Ungueltige Suchkriterien").className
        = (ServiceError.notFoundException
            "Es gibt kein Buch mit der ID 1.").className
    ∧ BuchReadService.findById (QueryBuilder.ofStore [] (fun _ _ => false))
        ⟨1, none⟩
      = Except.error (ServiceError.notFoundException
          "Es gibt kein Buch mit der ID 1.") := by
  refine ⟨rfl, by decide, rfl, rfl⟩

/-- C1 (amended): for every criteria mapping with a nonempty key list that
fails `#checkKeys`, `find` throws a `NotFoundException` carrying the fixed
message "Ungueltige Suchkriterien" — the same exception class as the
not-found failures, not naming the offending keys. -/
theorem find_invalid_keys_fixed_message (props : List String)
    (qb : QueryBuilder) (sk : Suchkriterien)
    (hne : sk ≠ [])
    (hbad : BuchReadService.checkKeys props (sk.map Prod.fst) = false) :
    (BuchReadService.find props qb (some sk)).1
      = Except.error
          (ServiceError.notFoundException "Ungueltige Suchkriterien") := by
  simp [BuchReadService.find, hbad, List.length_eq_zero, hne]

/-- C1 (amended) at a concrete input: the key "foo" is unrecognized and the
service throws the fixed invalid-criteria message. -/
theorem find_invalid_keys_fixed_message_witness :
    (([("foo", CritValue.str "bar")] : Suchkriterien) ≠ [])
    ∧ BuchReadService.checkKeys buchProps
        (([("foo", CritValue.str "bar")] : Suchkriterien).map Prod.fst) = false
    ∧ (BuchReadService.find buchProps
          (QueryBuilder.ofStore [] (fun _ _ => false))
          (some [("foo", CritValue.str "bar")])).1
        = Except.error
            (ServiceError.notFoundException "Ungueltige Suchkriterien") :=
  ⟨by decide, by decide,
   find_invalid_keys_fixed_message buchProps
     (QueryBuilder.ofStore [] (fun _ _ => false))
     [("foo", CritValue.str "bar")] (by decide) (by decide)⟩

/-- C2: with absent criteria or a zero-key criteria mapping, `find` returns
the full unfiltered list of Books (the whole store, images not joined) and
never fails — instantiating the store with `[]` gives `ok []`. -/
theorem find_no_criteria_returns_all (props : List String)
    (store : List BuchRow) (matcher : BuchRow → String × CritValue → Bool) :
    (BuchReadService.find props (QueryBuilder.ofStore store matcher) none).1
      = Except.ok (store.map (project false))
    ∧ (BuchReadService.find props (QueryBuilder.ofStore store matcher)
        (some [])).1
      = Except.ok (store.map (project false)) := by
  constructor <;>
    simp [BuchReadService.find, QueryBuilder.ofStore, List.filter_true]

/-- C3: for a nonempty criteria mapping passing `#checkKeys`, `find` throws
a `NotFoundException` describing the criteria (via `JSON.stringify`) when
the executed query yields zero rows, and returns the rows of the query
otherwise. -/
theorem find_valid_criteria_result (props : List String) (qb : QueryBuilder)
    (sk : Suchkriterien)
    (hne : sk ≠ [])
    (hok : BuchReadService.checkKeys props (sk.map Prod.fst) = true) :
    (qb.buildGetMany sk = [] →
      (BuchReadService.find props qb (some sk)).1
        = Except.error (ServiceError.notFoundException
            ("Keine Buecher gefunden: " ++ stringifyCriteria sk)))
    ∧ (qb.buildGetMany sk ≠ [] →
      (BuchReadService.find props qb (some sk)).1
        = Except.ok (qb.buildGetMany sk)) := by
  constructor <;> intro hq <;>
    simp [BuchReadService.find, hok, hq, List.length_eq_zero, hne]

/-- C3 at a concrete input: a valid `titel` criterion over the empty store
yields the criteria-describing not-found message. -/
theorem find_valid_criteria_result_witness :
    (([("titel", CritValue.str "Java")] : Suchkriterien) ≠ [])
    ∧ BuchReadService.checkKeys buchProps
        (([("titel", CritValue.str "Java")] : Suchkriterien).map Prod.fst)
        = true
    ∧ (QueryBuilder.ofStore [] (fun _ _ => false)).buildGetMany
        [("titel", CritValue.str "Java")] = []
    ∧ (BuchReadService.find buchProps
          (QueryBuilder.ofStore [] (fun _ _ => false))
          (some [("titel", CritValue.str "Java")])).1
        = Except.error (ServiceError.notFoundException
            ("Keine Buecher gefunden: "
              ++ stringifyCriteria [("titel", CritValue.str "Java")])) :=
  ⟨by decide, by decide, by decide,
   (find_valid_criteria_result buchProps
      (QueryBuilder.ofStore [] (fun _ _ => false))
      [("titel", CritValue.str "Java")] (by decide) (by decide)).1
     (by decide)⟩

/-- C6: for every criteria mapping with a nonempty key list containing an
unrecognized key, `find` fails with an exception and its query trace is
empty: key validation strictly precedes query construction, so no query is
ever built or executed on the invalid-criteria path. -/
theorem find_invalid_keys_runs_no_query (props : List String)
    (qb : QueryBuilder) (sk : Suchkriterien)
    (hne : sk ≠ [])
    (hbad : BuchReadService.checkKeys props (sk.map Prod.fst) = false) :
    (BuchReadService.find props qb (some sk)).2 = []
    ∧ ∃ e, (BuchReadService.find props qb (some sk)).1 = Except.error e := by
  refine ⟨?_, ServiceError.notFoundException "Ungueltige Suchkriterien", ?_⟩ <;>
    simp [BuchReadService.find, hbad, List.length_eq_zero, hne]

/-- C6 at a concrete input: the unrecognized key "xyz" leaves the query
trace empty. -/
theorem find_invalid_keys_runs_no_query_witness :
    (([("xyz", CritValue.boolean true)] : Suchkriterien) ≠ [])
    ∧ BuchReadService.checkKeys buchProps
        (([("xyz", CritValue.boolean true)] : Suchkriterien).map Prod.fst)
        = false
    ∧ (BuchReadService.find buchProps
          (QueryBuilder.ofStore [] (fun _ _ => false))
          (some [("xyz", CritValue.boolean true)])).2 = [] :=
  ⟨by decide, by decide,
   (find_invalid_keys_runs_no_query buchProps
      (QueryBuilder.ofStore [] (fun _ _ => false))
      [("xyz", CritValue.boolean true)] (by decide) (by decide)).1⟩

/-- over a store with pairwise distinct ids, `find?` on the id predicate
returns exactly the member carrying that id. -/
theorem find?_id_eq_some (store : List BuchRow) (row : BuchRow)
    (hu : (store.map BuchRow.id).Nodup) (hmem : row ∈ store) :
    store.find? (fun r => r.id == row.id) = some row := by
  induction store with
  | nil => cases hmem
  | cons h t ih =>
      rw [List.map_cons, List.nodup_cons] at hu
      rcases List.mem_cons.mp hmem with heq | hmemt
      · subst heq
        exact List.find?_cons_of_pos _ (by simp)
      · have hne : h.id ≠ row.id := by
          intro hid
          exact hu.1 (hid ▸ List.mem_map_of_mem BuchRow.id hmemt)

        rw [List.find?_cons_of_neg _ (by simp [hne])]
        exact ih hu.2 hmemt

/-- C4: over a store whose ids are pairwise distinct, `findById({id})`
returns exactly the unique Book carrying that id when one exists, and
throws the id-naming `NotFoundException` if and only if no stored Book
carries the id. -/
theorem findById_unique_or_notFound (store : List BuchRow)
    (matcher : BuchRow → String × CritValue → Bool) (id0 : Int)
    (hu : (store.map BuchRow.id).Nodup) :
    (∀ row ∈ store, row.id = id0 →
       BuchReadService.findById (QueryBuilder.ofStore store matcher)
           ⟨id0, none⟩
         = Except.ok (project false row))
    ∧ (BuchReadService.findById (QueryBuilder.ofStore store matcher)
           ⟨id0, none⟩
         = Except.error (ServiceError.notFoundException
             ("Es gibt kein Buch mit der ID " ++ toString id0 ++ "."))
       ↔ ∀ row ∈ store, row.id ≠ id0) := by
  constructor
  · intro row hmem hid
    subst hid
    have hf := find?_id_eq_some store row hu hmem
    simp [BuchReadService.findById, QueryBuilder.ofStore, hf]
  · constructor
    · intro herr row hmem hid
      subst hid
      have hf := find?_id_eq_some store row hu hmem
      simp [BuchReadService.findById, QueryBuilder.ofStore, hf] at herr
    · intro hall
      have hn : store.find? (fun r => r.id == id0) = none :=
        List.find?_eq_none.mpr (fun x hx => by simp [hall x hx])
      simp [BuchReadService.findById, QueryBuilder.ofStore, hn]

/-- C4 at a concrete input: the one-row store has distinct ids and the
lookup for the absent id 2 throws the id-naming exception. -/
theorem findById_unique_or_notFound_witness :
    (([demoRow] : List BuchRow).map BuchRow.id).Nodup
    ∧ BuchReadService.findById
        (QueryBuilder.ofStore [demoRow] (fun _ _ => false)) ⟨2, none⟩
      = Except.error (ServiceError.notFoundException
          ("Es gibt kein Buch mit der ID " ++ toString (2 : Int) ++ ".")) :=
  ⟨by decide,
   ((findById_unique_or_notFound [demoRow] (fun _ _ => false) 2
       (by decide)).2).mpr (by decide)⟩

/-- C7: for a stored Book, `findById` with `mitAbbildungen: true` returns it
with the images relation populated, with `mitAbbildungen: false` it returns
it with images absent, and omitting `mitAbbildungen` behaves exactly like
passing `false` (the destructuring default). -/
theorem findById_mitAbbildungen_joins (store : List BuchRow)
    (matcher : BuchRow → String × CritValue → Bool) (row : BuchRow)
    (hu : (store.map BuchRow.id).Nodup) (hmem : row ∈ store) :
    (BuchReadService.findById (QueryBuilder.ofStore store matcher)
         ⟨row.id, some true⟩
       = Except.ok (project true row)
      ∧ (project true row).abbildungen = some row.abbildungen)
    ∧ (BuchReadService.findById (QueryBuilder.ofStore store matcher)
         ⟨row.id, some false⟩
       = Except.ok (project false row)
      ∧ (project false row).abbildungen = none)
    ∧ BuchReadService.findById (QueryBuilder.ofStore store matcher)
        ⟨row.id, none⟩
      = BuchReadService.findById (QueryBuilder.ofStore store matcher)
          ⟨row.id, some false⟩ := by
  have hf := find?_id_eq_some store row hu hmem
  refine ⟨⟨?_, ?_⟩, ⟨?_, ?_⟩, ?_⟩ <;>
    simp [BuchReadService.findById, QueryBuilder.ofStore, project, hf]

/-- C7 at a concrete input: the stored row with id 1 comes back with its
image list under `mitAbbildungen: true`. -/
theorem findById_mitAbbildungen_joins_witness :
    ((([demoRow] : List BuchRow).map BuchRow.id).Nodup
      ∧ demoRow ∈ [demoRow])
    ∧ BuchReadService.findById
        (QueryBuilder.ofStore [demoRow] (fun _ _ => false))
        ⟨demoRow.id, some true⟩
      = Except.ok (project true demoRow)
    ∧ (project true demoRow).abbildungen = some [demoAbbildung] :=
  ⟨⟨by decide, by simp⟩,
   ((findById_mitAbbildungen_joins [demoRow] (fun _ _ => false) demoRow
       (by decide) (by simp)).1).1,
   by decide⟩

/-- C9: the GraphQL `buch` resolver calls the read service with only the id
(`mitAbbildungen` omitted, since `IdInput` carries no image flag), so a Book
it returns never has its images loaded. -/
theorem resolver_findById_never_loads_images (store : List BuchRow)
    (matcher : BuchRow → String × CritValue → Bool) (idInput : IdInput) :
    BuchQueryResolver.findById (QueryBuilder.ofStore store matcher) idInput
      = BuchReadService.findById (QueryBuilder.ofStore store matcher)
          ⟨idInput.id, none⟩
    ∧ ∀ b,
        BuchQueryResolver.findById (QueryBuilder.ofStore store matcher)
            idInput
          = Except.ok b →
        b.abbildungen = none := by
  refine ⟨rfl, ?_⟩
  intro b hb
  unfold BuchQueryResolver.findById BuchReadService.findById at hb
  cases hfind : store.find? (fun r => r.id == idInput.id) with
  | none => simp [QueryBuilder.ofStore, hfind] at hb
  | some r =>
      simp [QueryBuilder.ofStore, hfind] at hb
      simp [← hb, project]

/-- C9 at a concrete input: the resolver returns the projection of the
stored row with id 1, and its `abbildungen` field is absent. -/
theorem resolver_findById_never_loads_images_witness :
    BuchQueryResolver.findById
        (QueryBuilder.ofStore [demoRow] (fun _ _ => false)) ⟨1⟩
      = Except.ok (project false demoRow)
    ∧ (project false demoRow).abbildungen = none :=
  ⟨rfl,
   (resolver_findById_never_loads_images [demoRow] (fun _ _ => false)
       ⟨1⟩).2 (project false demoRow) rfl⟩

/-- the rendered digit block of `toFixed(2)` is two characters for every
residue below 100. -/
theorem toFixed2_digits_length :
    ∀ m : Nat, m < 100 →
      (if m < 10 then "0" ++ toString m else toString m).length = 2 := by
  decide

/-- `frac2` always renders exactly two characters. -/
theorem frac2_length (n : Int) : (frac2 n).length = 2 := by
  unfold frac2
  have h1 : 0 ≤ Int.emod n 100 := Int.emod_nonneg n (by norm_num)
  have h2 : Int.emod n 100 < 100 := Int.emod_lt_of_pos n (by norm_num)
  exact toFixed2_digits_length (Int.emod n 100).toNat (by omega)

/-- `jsRound` is the identity on integers. -/
theorem jsRound_intCast (k : Int) : jsRound ((k : ℚ)) = k := by
  simp only [jsRound, Rat.num_intCast, Rat.den_intCast, Nat.cast_one, mul_one]
  have hdiv : Int.ediv (2 * k + 1) 2 = (2 * k + 1) / 2 := rfl
  rw [hdiv]
  omega

/-- C8: the `rabatt` ResolveField renders a present discount fraction `r`
(with the `short` argument omitted) as an integer part, a dot, exactly two
fractional digits and the suffix " %"; in particular a discount of `0.1`
renders as "10.00 %". -/
theorem rabatt_two_decimals_percent (buch : Buch) (r : ℚ)
    (h : buch.rabatt = some r) (h0 : 0 ≤ r) :
    (∃ whole frac, BuchQueryResolver.rabatt buch none
        = whole ++ "." ++ frac ++ " %"
      ∧ frac.length = 2)
    ∧ (r = 1/10 → BuchQueryResolver.rabatt buch none = "10.00 %") := by
  constructor
  · refine ⟨toString (Int.ediv (jsRound (r * 100 * 100)) 100),
      frac2 (jsRound (r * 100 * 100)), ?_, frac2_length _⟩
    simp [BuchQueryResolver.rabatt, h, toFixed2, String.append_assoc]
  · intro hr
    subst hr
    have hx : ((1 : ℚ)/10) * 100 * 100 = ((1000 : Int) : ℚ) := by norm_num
    simp only [BuchQueryResolver.rabatt, h, Option.getD_some, toFixed2, hx,
      jsRound_intCast]
    decide

/-- C8 at a concrete input: the projection of the demo row carries discount
`1/10` and renders as "10.00 %". -/
theorem rabatt_two_decimals_percent_witness :
    (project false demoRow).rabatt = some (1/10)
    ∧ (0 : ℚ) ≤ 1/10
    ∧ BuchQueryResolver.rabatt (project false demoRow) none = "10.00 %" :=
  ⟨rfl, by norm_num,
   (rabatt_two_decimals_percent (project false demoRow) (1/10)
       rfl (by norm_num)).2 rfl⟩

/-- C10: `findImageByName` reads the file at the fixed path prefix
concatenated with the unsanitized image name: it returns the bytes of that file
when the read succeeds and throws the name-carrying `NotFoundException`
exactly when the read fails. -/
theorem findImageByName_reads_fixed_path (fs : String → Option Buffer)
    (imageName : String) :
    BuchReadService.findImageByName fs imageName
      = match fs ("C:/Users/Student/SWE/buch/images/" ++ imageName) with
        | some b => Except.ok b
        | none =>
            Except.error (ServiceError.notFoundException
              ("Image not found for name: " ++ imageName)) := by
  have hbase : ("C:/Users/Student/SWE/buch/images/" : String) = imageBasePath :=
    rfl
  rw [hbase]
  unfold BuchReadService.findImageByName BuchReadService.loadImageFromServer
    BuchReadService.loadImageFromFileSystem
  cases hfs : fs (imageBasePath ++ imageName) <;> simp [bufferTruthy, hfs]

end BuchBackend
